import Mathlib

/-!
Verification of the token / federation core of the `fastapi_template`
repository against its specification.

The development shallowly embeds the relevant parts of the source:

* `src/app/oauth2.py` — the refresh-session ledger (`issue_token_pair`,
  `rotate_refresh_token`, `revoke_refresh_token`).  The database table of
  `RefreshToken` rows becomes a list of `RefreshSession` records; an SQL
  `filter(jti == …).first()` becomes `lookupJti`; the ORM's in-place row
  mutation becomes `updateFirst`.  A refresh token that passed
  `verify_refresh_token` is represented by its verified payload
  `RefreshPayload` (user_id, jti, exp) — the claims under study quantify
  over cryptographically valid tokens, which are exactly those payloads.
  Timestamps are integers; the minted fresh `jti`/expiry (produced by
  `uuid.uuid4()` and the clock in the source) are explicit parameters.

* `src/app/oauth_external.py` — the OAuth state codec, PKCE challenge
  derivation, the provider registry, GitHub e-mail selection and the
  identity linker.  The signed JWT state is represented by its payload
  record (the claims quantify over tokens signed with the deployment key,
  and `jose.jwt.decode` checks the `exp` claim at decode time, modelled by
  an explicit expiry test).
-/

namespace FastapiTemplate

/-! ## Refresh-session ledger (`src/app/oauth2.py`) -/

/-- A row of the `refresh_tokens` table (`models.RefreshToken`). -/
structure RefreshSession where
  user_id : Nat
  jti : String
  revoked : Bool
  expires_at : Int
  rotated_from_jti : Option String
  replaced_by_jti : Option String
  deriving Repr, DecidableEq

/-- The persisted ledger: the rows of the `refresh_tokens` table. -/
abbrev Ledger := List RefreshSession

/-- The verified payload of a cryptographically valid refresh token, as
returned by `verify_refresh_token` (src/app/oauth2.py:142-157). -/
structure RefreshPayload where
  user_id : Nat
  jti : String
  exp : Int
  deriving Repr, DecidableEq

/-- `db.query(RefreshToken).filter(RefreshToken.jti == jti).first()`. -/
def lookupJti (jti : String) (db : Ledger) : Option RefreshSession :=
  db.find? (fun s => s.jti == jti)

/-- Update the first row matching `p` in place (the ORM mutates the row
object returned by `.first()` and commits). -/
def updateFirst (p : RefreshSession → Bool) (f : RefreshSession → RefreshSession) :
    Ledger → Ledger
  | [] => []
  | s :: rest => if p s then f s :: rest else s :: updateFirst p f rest

/-- The single error kind of the ledger: every refresh-token failure
collapses to `invalid_refresh_token` (src/app/oauth2.py:54-62). -/
inductive RefreshError where
  | InvalidRefreshToken
  deriving Repr, DecidableEq

/-- `_persist_refresh_token` (src/app/oauth2.py:160-175): add a fresh,
unrevoked row. -/
def persist_refresh_token (user_id : Nat) (jti : String) (expires_at : Int)
    (rotated_from_jti : Option String) (db : Ledger) : Ledger :=
  db ++ [⟨user_id, jti, false, expires_at, rotated_from_jti, none⟩]

/-- `issue_token_pair` (src/app/oauth2.py:178-193): mint a pair and persist
the refresh session.  `jti` and `exp` are the freshly minted token's claims. -/
def issue_token_pair (user_id : Nat) (jti : String) (exp : Int) (db : Ledger) :
    Ledger :=
  persist_refresh_token user_id jti exp none db

/-- Result of a rotation attempt: the outcome (the new refresh token's
verified payload, on success) together with the committed ledger. -/
structure RotateResult where
  outcome : Except RefreshError RefreshPayload
  ledger : Ledger
  deriving Repr

/-- The body of `rotate_refresh_token` (src/app/oauth2.py:196-227) after the
`SELECT`: the decision is computed from the loaded row `snap` (the ORM
object returned by `.first()`), and the writes are applied to the current
table `db` keyed by the row's `jti` (the ORM issues an unconditional
`UPDATE … WHERE id = :pk` at commit — there is no `WHERE revoked = false`
guard in the source).  `now` is `datetime.now(timezone.utc)` at the expiry
check; `newJti`/`newExp` are the claims of the freshly minted token. -/
def rotateWithSnapshot (snap : Option RefreshSession) (now : Int)
    (newJti : String) (newExp : Int) (tok : RefreshPayload) (db : Ledger) :
    RotateResult :=
  match snap with
  | none => ⟨.error .InvalidRefreshToken, db⟩
  | some s =>
    if s.revoked then ⟨.error .InvalidRefreshToken, db⟩
    else if s.expires_at ≤ now then
      ⟨.error .InvalidRefreshToken,
        updateFirst (fun t => t.jti == tok.jti) (fun t => { t with revoked := true }) db⟩
    else
      ⟨.ok ⟨tok.user_id, newJti, newExp⟩,
        persist_refresh_token tok.user_id newJti newExp (some tok.jti)
          (updateFirst (fun t => t.jti == tok.jti)
            (fun t => { t with revoked := true, replaced_by_jti := some newJti }) db)⟩

/-- `rotate_refresh_token` (src/app/oauth2.py:196-227), sequential
semantics: the row is read and the writes commit with no interleaved
transaction. -/
def rotate_refresh_token (now : Int) (newJti : String) (newExp : Int)
    (tok : RefreshPayload) (db : Ledger) : RotateResult :=
  rotateWithSnapshot (lookupJti tok.jti db) now newJti newExp tok db

/-- Two rotation transactions on the same refresh token under the
interleaving `SELECT₁, SELECT₂, COMMIT₁, COMMIT₂` (read-committed storage:
both `SELECT`s run before either transaction's writes commit).  Returns
(outcome of attempt 1, outcome of attempt 2, final table). -/
def twoRotationsBothRead (now : Int) (j1 : String) (e1 : Int) (j2 : String)
    (e2 : Int) (tok : RefreshPayload) (db : Ledger) :
    RotateResult × RotateResult :=
  let snap1 := lookupJti tok.jti db
  let snap2 := lookupJti tok.jti db
  let r1 := rotateWithSnapshot snap1 now j1 e1 tok db
  let r2 := rotateWithSnapshot snap2 now j2 e2 tok r1.ledger
  (r1, r2)

/-- `revoke_refresh_token` (src/app/oauth2.py:230-242): returns the boolean
result and the committed ledger. -/
def revoke_refresh_token (tok : RefreshPayload) (db : Ledger) : Bool × Ledger :=
  match lookupJti tok.jti db with
  | none => (false, db)
  | some s =>
    if s.revoked then (true, db)
    else (true, updateFirst (fun t => t.jti == tok.jti)
      (fun t => { t with revoked := true }) db)

/-- One ledger operation: an `issue_token_pair`, a `rotate_refresh_token`
(successful or failing — either way its committed ledger), or a
`revoke_refresh_token`. -/
inductive Step : Ledger → Ledger → Prop where
  | issue (uid : Nat) (jti : String) (exp : Int) (db : Ledger) :
      Step db (issue_token_pair uid jti exp db)
  | rotate (now : Int) (newJti : String) (newExp : Int) (tok : RefreshPayload)
      (db : Ledger) : Step db (rotate_refresh_token now newJti newExp tok db).ledger
  | revoke (tok : RefreshPayload) (db : Ledger) :
      Step db (revoke_refresh_token tok db).2

/-- Ledger states reachable from the empty table by ledger operations. -/
def Reachable (db : Ledger) : Prop := Relation.ReflTransGen Step [] db

/-- Invariant (a) of the spec's `RefreshSession`: a session with
`replaced_by_jti` set is always revoked. -/
def ReplacedImpliesRevoked (db : Ledger) : Prop :=
  ∀ s ∈ db, s.replaced_by_jti.isSome → s.revoked = true

/-- Monotonicity of `revoked` across one operation: rows survive in place
(operations never delete and only append), keep their `jti`, and a revoked
row never becomes unrevoked. -/
def RevokedMonotone (db db' : Ledger) : Prop :=
  db.length ≤ db'.length ∧
  ∀ (i : Nat) (s s' : RefreshSession), db[i]? = some s → db'[i]? = some s' →
    s'.jti = s.jti ∧ (s.revoked = true → s'.revoked = true)

/-! ## OAuth state codec (src/app/oauth_external.py:191-247)

The signed state JWT is represented by its claim payload.  The claims under
study quantify over states built (hence signed) by `build_oauth_state`, and
`jose.jwt.decode` validates the signature and the `exp` claim at decode
time (raising `JWTError` when `exp < now`), which `parse_oauth_state`
catches and maps to `invalid_oauth_state`. -/

/-- The claim set written by `build_oauth_state`. -/
structure OAuthStatePayload where
  token_type : String
  provider : String
  code_verifier : String
  redirect_to_frontend : Bool
  jti : String
  exp : Int
  link_user_id : Option Int
  deriving Repr, DecidableEq

/-- The `OAuthState` dataclass returned by `parse_oauth_state`. -/
structure OAuthState where
  provider : String
  code_verifier : String
  redirect_to_frontend : Bool
  link_user_id : Option Int
  deriving Repr, DecidableEq

/-- The single error kind of the codec: `invalid_oauth_state`. -/
inductive OAuthStateError where
  | InvalidOAuthState
  deriving Repr, DecidableEq

/-- `build_oauth_state` (src/app/oauth_external.py:191-208).  `jti` is the
fresh `uuid4` hex, `now` the build-time clock, `ttl` the configured
`oauth_state_expire_seconds`.  `link_user_id` is embedded via `int(…)`
whenever it is not `None` — with no positivity check. -/
def build_oauth_state (provider code_verifier : String)
    (redirect_to_frontend : Bool) (link_user_id : Option Int)
    (jti : String) (now ttl : Int) : OAuthStatePayload :=
  { token_type := "oauth_state"
    provider := provider
    code_verifier := code_verifier
    redirect_to_frontend := redirect_to_frontend
    jti := jti
    exp := now + ttl
    link_user_id := link_user_id }

/-- `parse_oauth_state` (src/app/oauth_external.py:211-247) on a payload
signed with the deployment key, decoded at time `now`. -/
def parse_oauth_state (p : OAuthStatePayload) (expected_provider : String)
    (now : Int) : Except OAuthStateError OAuthState :=
  if p.exp < now then .error .InvalidOAuthState
  else if p.token_type ≠ "oauth_state" then .error .InvalidOAuthState
  else if p.provider ≠ expected_provider then .error .InvalidOAuthState
  else if p.code_verifier = "" then .error .InvalidOAuthState
  else
    match p.link_user_id with
    | none => .ok ⟨p.provider, p.code_verifier, p.redirect_to_frontend, none⟩
    | some l =>
      if l ≤ 0 then .error .InvalidOAuthState
      else .ok ⟨p.provider, p.code_verifier, p.redirect_to_frontend, some l⟩

/-! ## PKCE challenge derivation (src/app/oauth_external.py:186-188)

`_build_code_challenge` computes
`base64.urlsafe_b64encode(hashlib.sha256(v.encode("utf-8")).digest()).rstrip(b"=")`.
SHA-256 (FIPS 180-4, as implemented by `hashlib.sha256`) and RFC 4648
URL-safe base64 (as implemented by `base64.urlsafe_b64encode`) are embedded
below on byte lists (`List Nat`, each < 256). -/

/-- The RFC 4648 URL-safe base64 alphabet used by `base64.urlsafe_b64encode`. -/
def base64UrlAlphabet : List Char :=
  "ABCDEFGHIJKLMNOPQRSTUVWXYZabcdefghijklmnopqrstuvwxyz0123456789-_".toList

/-- Alphabet lookup (indices produced by the encoder are < 64). -/
def b64Char (n : Nat) : Char := base64UrlAlphabet.getD (n % 64) 'A'

/-- `base64.urlsafe_b64encode`: three input bytes per four output
characters, `'='`-padded final group. -/
def base64UrlEncode : List Nat → List Char
  | [] => []
  | [a] => [b64Char (a / 4), b64Char ((a % 4) * 16), '=', '=']
  | [a, b] => [b64Char (a / 4), b64Char ((a % 4) * 16 + b / 16),
      b64Char ((b % 16) * 4), '=']
  | a :: b :: c :: rest =>
    b64Char (a / 4) :: b64Char ((a % 4) * 16 + b / 16) ::
      b64Char ((b % 16) * 4 + c / 64) :: b64Char (c % 64) :: base64UrlEncode rest

/-- URL-safe base64 *without padding*, written from the spec's words
("URL-safe-base64 (no padding)"), to be compared with the source's
encode-then-strip. -/
def base64UrlNoPad : List Nat → List Char
  | [] => []
  | [a] => [b64Char (a / 4), b64Char ((a % 4) * 16)]
  | [a, b] => [b64Char (a / 4), b64Char ((a % 4) * 16 + b / 16),
      b64Char ((b % 16) * 4)]
  | a :: b :: c :: rest =>
    b64Char (a / 4) :: b64Char ((a % 4) * 16 + b / 16) ::
      b64Char ((b % 16) * 4 + c / 64) :: b64Char (c % 64) :: base64UrlNoPad rest

/-- `bytes.rstrip(b"=")`: drop trailing `'='` characters. -/
def stripTrailingEq (l : List Char) : List Char :=
  (l.reverse.dropWhile (fun ch => ch == '=')).reverse

/-- Truncation to a 32-bit word. -/
def w32 (n : Nat) : Nat := n % 4294967296

/-- 32-bit right rotation (inputs are < 2^32). -/
def rotr32 (k x : Nat) : Nat := w32 ((x >>> k) ||| (x <<< (32 - k)))

def bigSigma0 (x : Nat) : Nat := rotr32 2 x ^^^ rotr32 13 x ^^^ rotr32 22 x

def bigSigma1 (x : Nat) : Nat := rotr32 6 x ^^^ rotr32 11 x ^^^ rotr32 25 x

def smallSigma0 (x : Nat) : Nat := rotr32 7 x ^^^ rotr32 18 x ^^^ (x >>> 3)

def smallSigma1 (x : Nat) : Nat := rotr32 17 x ^^^ rotr32 19 x ^^^ (x >>> 10)

def chWord (x y z : Nat) : Nat := (x &&& y) ^^^ ((4294967295 ^^^ x) &&& z)

def majWord (x y z : Nat) : Nat := (x &&& y) ^^^ (x &&& z) ^^^ (y &&& z)

/-- The SHA-256 round constants K. -/
def sha256K : List Nat :=
  [1116352408, 1899447441, 3049323471, 3921009573, 961987163,
   1508970993, 2453635748, 2870763221, 3624381080, 310598401,
   607225278, 1426881987, 1925078388, 2162078206, 2614888103,
   3248222580, 3835390401, 4022224774, 264347078, 604807628,
   770255983, 1249150122, 1555081692, 1996064986, 2554220882,
   2821834349, 2952996808, 3210313671, 3336571891, 3584528711,
   113926993, 338241895, 666307205, 773529912, 1294757372,
   1396182291, 1695183700, 1986661051, 2177026350, 2456956037,
   2730485921, 2820302411, 3259730800, 3345764771, 3516065817,
   3600352804, 4094571909, 275423344, 430227734, 506948616,
   659060556, 883997877, 958139571, 1322822218, 1537002063,
   1747873779, 1955562222, 2024104815, 2227730452, 2361852424,
   2428436474, 2756734187, 3204031479, 3329325298]

/-- The SHA-256 initial hash value. -/
def sha256InitH : List Nat :=
  [1779033703, 3144134277, 1013904242, 2773480762,
   1359893119, 2600822924, 528734635, 1541459225]

/-- Big-endian 8-byte encoding of the 64-bit message length. -/
def beBytes8 (n : Nat) : List Nat :=
  [n / 72057594037927936 % 256, n / 281474976710656 % 256,
   n / 1099511627776 % 256, n / 4294967296 % 256,
   n / 16777216 % 256, n / 65536 % 256, n / 256 % 256, n % 256]

/-- Big-endian 4-byte encoding of a 32-bit word. -/
def beBytes4 (n : Nat) : List Nat :=
  [n / 16777216 % 256, n / 65536 % 256, n / 256 % 256, n % 256]

/-- SHA-256 padding: `0x80`, zeros to 56 mod 64, then the bit length. -/
def sha256Pad (msg : List Nat) : List Nat :=
  msg ++ [0x80] ++ List.replicate ((64 - ((msg.length + 9) % 64)) % 64) 0 ++
    beBytes8 (8 * msg.length)

/-- Split into 64-byte blocks. -/
def chunks64Go : Nat → List Nat → List (List Nat)
  | _, [] => []
  | 0, _ :: _ => []
  | fuel + 1, x :: rest =>
    ((x :: rest).take 64) :: chunks64Go fuel ((x :: rest).drop 64)

/-- Split into 64-byte blocks (fuel-driven: the length strictly drops by at
least one per block, so `l.length` steps always suffice). -/
def chunks64 (l : List Nat) : List (List Nat) := chunks64Go l.length l

/-- Big-endian 32-bit words from bytes. -/
def bytesToWords : List Nat → List Nat
  | a :: b :: c :: d :: rest =>
    (a * 16777216 + b * 65536 + c * 256 + d) :: bytesToWords rest
  | _ => []

/-- One extension step of the message schedule:
`w[i] = σ1(w[i-2]) + w[i-7] + σ0(w[i-15]) + w[i-16]`. -/
def scheduleStep (w : List Nat) : List Nat :=
  w ++ [w32 (w.getD (w.length - 16) 0 + smallSigma0 (w.getD (w.length - 15) 0) +
    w.getD (w.length - 7) 0 + smallSigma1 (w.getD (w.length - 2) 0))]

/-- Extend the 16-word schedule by `n` further words. -/
def extendSchedule : List Nat → Nat → List Nat
  | w, 0 => w
  | w, n + 1 => extendSchedule (scheduleStep w) n

/-- One SHA-256 compression round on the working state `[a,…,h]`. -/
def compressRound (wi ki : Nat) (st : List Nat) : List Nat :=
  let a := st.getD 0 0
  let b := st.getD 1 0
  let c := st.getD 2 0
  let d := st.getD 3 0
  let e := st.getD 4 0
  let f := st.getD 5 0
  let g := st.getD 6 0
  let h := st.getD 7 0
  let t1 := w32 (h + bigSigma1 e + chWord e f g + ki + wi)
  let t2 := w32 (bigSigma0 a + majWord a b c)
  [w32 (t1 + t2), a, b, c, w32 (d + t1), e, f, g]

/-- Compress one 64-byte block into the hash state. -/
def compressBlock (hs : List Nat) (block : List Nat) : List Nat :=
  let w := extendSchedule (bytesToWords block) 48
  let st := (List.range 64).foldl
    (fun st i => compressRound (w.getD i 0) (sha256K.getD i 0) st) hs
  List.zipWith (fun x y => w32 (x + y)) hs st

/-- SHA-256 of a byte list (FIPS 180-4), as `hashlib.sha256(...).digest()`. -/
def sha256 (msg : List Nat) : List Nat :=
  ((chunks64 (sha256Pad msg)).foldl compressBlock sha256InitH).map beBytes4
    |>.flatten

/-- UTF-8 encoding of one Unicode code point (RFC 3629). -/
def utf8EncodeCodepoint (n : Nat) : List Nat :=
  if n < 128 then [n]
  else if n < 2048 then [192 + n / 64, 128 + n % 64]
  else if n < 65536 then [224 + n / 4096, 128 + (n / 64) % 64, 128 + n % 64]
  else [240 + n / 262144, 128 + (n / 4096) % 64, 128 + (n / 64) % 64,
    128 + n % 64]

/-- `v.encode("utf-8")` as a byte list. -/
def utf8Bytes (s : String) : List Nat :=
  (s.data.map (fun c => utf8EncodeCodepoint c.toNat)).flatten

/-- `_build_code_challenge` (src/app/oauth_external.py:186-188): URL-safe
base64 of the SHA-256 digest, with trailing `'='` stripped. -/
def build_code_challenge (code_verifier : String) : List Char :=
  stripTrailingEq (base64UrlEncode (sha256 (utf8Bytes code_verifier)))

/-! ## Provider registry and authorization parameters
(src/app/oauth_external.py:60-103, 250-280) -/

/-- `OAuthProviderConfig` (src/app/oauth_external.py:24-33); absent
`userinfo_params`/`authorize_params` dicts are the empty list. -/
structure OAuthProviderConfig where
  provider : String
  display_name : String
  authorize_url : String
  token_url : String
  scopes : List String
  userinfo_url : Option String
  userinfo_params : List (String × String)
  authorize_params : List (String × String)
  deriving Repr, DecidableEq

/-- The `_PROVIDERS` table (src/app/oauth_external.py:60-103). -/
def PROVIDERS : List (String × OAuthProviderConfig) :=
  [("google",
    { provider := "google", display_name := "Google"
      authorize_url := "https://accounts.google.com/o/oauth2/v2/auth"
      token_url := "https://oauth2.googleapis.com/token"
      scopes := ["openid", "email", "profile"]
      userinfo_url := some "https://openidconnect.googleapis.com/v1/userinfo"
      userinfo_params := []
      authorize_params := [] }),
   ("microsoft",
    { provider := "microsoft", display_name := "Microsoft"
      authorize_url := "https://login.microsoftonline.com/common/oauth2/v2.0/authorize"
      token_url := "https://login.microsoftonline.com/common/oauth2/v2.0/token"
      scopes := ["openid", "profile", "email"]
      userinfo_url := some "https://graph.microsoft.com/oidc/userinfo"
      userinfo_params := []
      authorize_params := [] }),
   ("apple",
    { provider := "apple", display_name := "Apple"
      authorize_url := "https://appleid.apple.com/auth/authorize"
      token_url := "https://appleid.apple.com/auth/token"
      scopes := ["openid", "email", "name"]
      userinfo_url := none
      userinfo_params := []
      authorize_params := [("response_mode", "form_post")] }),
   ("facebook",
    { provider := "facebook", display_name := "Facebook"
      authorize_url := "https://www.facebook.com/v19.0/dialog/oauth"
      token_url := "https://graph.facebook.com/v19.0/oauth/access_token"
      scopes := ["email", "public_profile"]
      userinfo_url := some "https://graph.facebook.com/me"
      userinfo_params := [("fields", "id,name,email")]
      authorize_params := [] }),
   ("github",
    { provider := "github", display_name := "GitHub"
      authorize_url := "https://github.com/login/oauth/authorize"
      token_url := "https://github.com/login/oauth/access_token"
      scopes := ["read:user", "user:email"]
      userinfo_url := some "https://api.github.com/user"
      userinfo_params := []
      authorize_params := [] })]

/-- Python `dict` assignment `d[k] = v`: replace in place or append. -/
def dictSet (d : List (String × String)) (k v : String) :
    List (String × String) :=
  if d.any (fun kv => kv.1 == k) then
    d.map (fun kv => if kv.1 == k then (k, v) else kv)
  else d ++ [(k, v)]

/-- Python `dict.update`: assign every pair of the second dict in order. -/
def dictUpdate (d : List (String × String)) :
    List (String × String) → List (String × String)
  | [] => d
  | (k, v) :: rest => dictUpdate (dictSet d k v) rest

/-- The query parameters composed by `build_authorization_url`
(src/app/oauth_external.py:269-280): the base parameters, then
`params.update(config.authorize_params)`. -/
def authorizationParams (config : OAuthProviderConfig)
    (client_id callback_url state code_challenge : String) :
    List (String × String) :=
  dictUpdate
    [("response_type", "code"), ("client_id", client_id),
     ("redirect_uri", callback_url),
     ("scope", String.intercalate " " config.scopes),
     ("state", state), ("code_challenge", code_challenge),
     ("code_challenge_method", "S256")]
    config.authorize_params

/-! ## External identity normalization (src/app/oauth_external.py:428-542)

JSON payloads are modelled by records of the fields the source reads.
String-typed JSON fields are `Option String` (absent vs. present); the
boolean-ish fields (`verified`, `primary`, `email_verified`) are modelled
as the `Bool` that `_to_bool` yields on them. -/

/-- One entry of the GitHub `/user/emails` response. -/
structure GithubEmailEntry where
  email : Option String
  primary : Bool
  verified : Bool
  deriving Repr, DecidableEq

/-- `_select_github_email` (src/app/oauth_external.py:428-470) applied to a
successfully fetched entry list: first the e-mail of the first
primary-and-verified entry, else of the first verified entry, else none;
an entry only counts if its e-mail is a non-empty string. -/
def select_github_email (entries : List GithubEmailEntry) :
    Option String × Bool :=
  let fromVerified :=
    match entries.find? (fun e => e.verified) with
    | some e =>
      match e.email with
      | some m => if m ≠ "" then (some m, true) else (none, false)
      | none => (none, false)
    | none => (none, false)
  match entries.find? (fun e => e.verified && e.primary) with
  | some e =>
    match e.email with
    | some m => if m ≠ "" then (some m, true) else fromVerified
    | none => fromVerified
  | none => fromVerified

/-- The fields of a userinfo JSON payload read by
`_identity_from_userinfo`. -/
structure UserinfoPayload where
  sub : Option String
  id : Option String
  email : Option String
  preferred_username : Option String
  email_verified : Bool
  deriving Repr, DecidableEq

/-- `oauth_profile_fetch_failed`. -/
inductive FetchError where
  | ProfileFetchFailed
  deriving Repr, DecidableEq

/-- The `ExternalIdentity` dataclass (src/app/oauth_external.py:44-49). -/
structure ExternalIdentity where
  provider : String
  subject : String
  email : Option String
  email_verified : Bool
  deriving Repr, DecidableEq

/-- `_identity_from_userinfo` (src/app/oauth_external.py:473-503). -/
def identity_from_userinfo (provider : String) (payload : UserinfoPayload) :
    Except FetchError ExternalIdentity :=
  let raw_subject :=
    if provider == "google" || provider == "microsoft" then payload.sub
    else payload.id
  match raw_subject with
  | none => .error .ProfileFetchFailed
  | some subject =>
    if subject = "" then .error .ProfileFetchFailed
    else
      let resolved₀ : Option String :=
        match payload.email with
        | some m => if m = "" then none else some m
        | none => none
      let resolved : Option String :=
        if provider == "microsoft" && resolved₀.isNone then
          match payload.preferred_username with
          | some p => if p = "" then resolved₀ else some p
          | none => resolved₀
        else resolved₀
      let verified :=
        if provider == "facebook" && resolved.isSome then true
        else payload.email_verified
      .ok ⟨provider, subject, resolved, verified⟩

/-- The GitHub arm of `fetch_external_identity`
(src/app/oauth_external.py:510-528): identity from `/user`; when its
e-mail is empty (`if identity.email:` — the resolved e-mail is `none` or
non-empty by construction), perform the secondary `/user/emails` lookup. -/
def fetch_github_identity (user : UserinfoPayload)
    (emails : List GithubEmailEntry) : Except FetchError ExternalIdentity :=
  match identity_from_userinfo "github" user with
  | .error e => .error e
  | .ok identity =>
    match identity.email with
    | some _ => .ok identity
    | none =>
      .ok ⟨identity.provider, identity.subject,
        (select_github_email emails).1, (select_github_email emails).2⟩

/-! ## Identity linker (src/app/oauth_external.py:593-653) -/

/-- A row of the `users` table (the fields the linker reads). -/
structure User where
  id : Nat
  email : String
  deriving Repr, DecidableEq

/-- A row of the `oauth_accounts` table. -/
structure OAuthAccount where
  user_id : Nat
  provider : String
  provider_subject : String
  provider_email : Option String
  last_login_at : Int
  deriving Repr, DecidableEq

/-- The error kinds of `_link_identity_to_existing_user`. -/
inductive LinkError where
  | UserNotFound
  | IdentityAlreadyLinked
  | ProviderAlreadyLinked
  deriving Repr, DecidableEq

/-- In-place mutation of the first matching `oauth_accounts` row. -/
def updateFirstAccount (p : OAuthAccount → Bool)
    (f : OAuthAccount → OAuthAccount) :
    List OAuthAccount → List OAuthAccount
  | [] => []
  | a :: rest => if p a then f a :: rest else a :: updateFirstAccount p f rest

/-- The idempotent refresh (src/app/oauth_external.py:640-642):
`last_login_at = now`, and `provider_email = identity.email` when the
identity carries a non-empty e-mail. -/
def refreshAccount (identity : ExternalIdentity) (now : Int)
    (a : OAuthAccount) : OAuthAccount :=
  { a with
    last_login_at := now
    provider_email :=
      match identity.email with
      | some m => if m ≠ "" then some m else a.provider_email
      | none => a.provider_email }

/-- `_link_identity_to_existing_user` (src/app/oauth_external.py:593-653):
returns the committed `oauth_accounts` table, or the raised error. -/
def link_identity_to_existing_user (users : List User)
    (accounts : List OAuthAccount) (user_id : Nat)
    (identity : ExternalIdentity) (now : Int) :
    Except LinkError (List OAuthAccount) :=
  match users.find? (fun u => u.id == user_id) with
  | none => .error .UserNotFound
  | some user =>
    let existing_subject_account := accounts.find? (fun a =>
      a.provider == identity.provider &&
      a.provider_subject == identity.subject)
    if (match existing_subject_account with
        | some a => a.user_id != user.id
        | none => false) then .error .IdentityAlreadyLinked
    else
      match accounts.find? (fun a =>
          a.user_id == user.id && a.provider == identity.provider) with
      | some b =>
        if b.provider_subject != identity.subject then
          .error .ProviderAlreadyLinked
        else
          .ok (updateFirstAccount (fun a =>
              a.user_id == user.id && a.provider == identity.provider)
            (refreshAccount identity now) accounts)
      | none =>
        .ok (accounts ++
          [⟨user.id, identity.provider, identity.subject, identity.email, now⟩])

/-- Well-formedness of the `oauth_accounts` table, from the schema's unique
constraint on `(provider, provider_subject)` and the linker's one-account-
per-provider-per-user invariant. -/
def AccountsWf (accounts : List OAuthAccount) : Prop :=
  (∀ a ∈ accounts, ∀ b ∈ accounts,
    a.provider = b.provider → a.provider_subject = b.provider_subject →
    a = b) ∧
  (∀ a ∈ accounts, ∀ b ∈ accounts,
    a.user_id = b.user_id → a.provider = b.provider → a = b)

/-! ### Basic ledger lemmas -/

theorem updateFirst_length (p : RefreshSession → Bool)
    (f : RefreshSession → RefreshSession) (db : Ledger) :
    (updateFirst p f db).length = db.length := by
  induction db with
  | nil => rfl
  | cons s rest ih =>
    simp only [updateFirst]
    by_cases h : p s <;> simp [h, ih]

theorem lookupJti_updateFirst_self (jti : String)
    (f : RefreshSession → RefreshSession)
    (hf : ∀ s, (f s).jti = s.jti) (db : Ledger) :
    lookupJti jti (updateFirst (fun t => t.jti == jti) f db)
      = (lookupJti jti db).map f := by
  induction db with
  | nil => rfl
  | cons s rest ih =>
    simp only [lookupJti, updateFirst, List.find?]
    by_cases h : s.jti == jti
    · simp only [h, if_pos rfl]
      have : (f s).jti == jti := by rw [hf s]; exact h
      simp [List.find?, this, h]
    · have h' : (s.jti == jti) = false := by
        exact Bool.not_eq_true _ ▸ (by simpa using h)
      simp only [h', if_neg, List.find?]
      simp only [lookupJti, List.find?] at ih
      simp [h', ih]

theorem mem_updateFirst (p : RefreshSession → Bool)
    (f : RefreshSession → RefreshSession) (db : Ledger) (x : RefreshSession)
    (hx : x ∈ updateFirst p f db) :
    x ∈ db ∨ ∃ s ∈ db, x = f s := by
  induction db with
  | nil => simp [updateFirst] at hx
  | cons s rest ih =>
    simp only [updateFirst] at hx
    by_cases hp : p s
    · rw [if_pos hp] at hx
      rcases List.mem_cons.mp hx with h | h
      · exact Or.inr ⟨s, List.mem_cons_self .., h⟩
      · exact Or.inl (List.mem_cons_of_mem _ h)
    · rw [if_neg hp] at hx
      rcases List.mem_cons.mp hx with h | h
      · exact Or.inl (h ▸ List.mem_cons_self ..)
      · rcases ih h with h' | ⟨t, ht, hxt⟩
        · exact Or.inl (List.mem_cons_of_mem _ h')
        · exact Or.inr ⟨t, List.mem_cons_of_mem _ ht, hxt⟩

theorem updateFirst_getElem (p : RefreshSession → Bool)
    (f : RefreshSession → RefreshSession) (db : Ledger) (i : Nat) :
    (updateFirst p f db)[i]? = db[i]? ∨
    (updateFirst p f db)[i]? = db[i]?.map f := by
  induction db generalizing i with
  | nil => simp [updateFirst]
  | cons s rest ih =>
    simp only [updateFirst]
    by_cases hp : p s
    · rw [if_pos hp]
      cases i with
      | zero => right; simp
      | succ n => simp
    · rw [if_neg hp]
      cases i with
      | zero => left; simp
      | succ n => simpa using ih n

/-! ### Claim C1 — replay detection on rotation -/

/-- C1.  For every cryptographically valid refresh token, if the ledger has
no session with its `jti`, or has one with `revoked = true`, rotation fails
with `InvalidRefreshToken`; and after `issue` then a successful rotation,
replaying the original token fails while the rotated-to token succeeds. -/
theorem rotate_replay_detection :
    (∀ (now newExp : Int) (newJti : String) (tok : RefreshPayload) (db : Ledger),
      (lookupJti tok.jti db = none ∨
        ∃ s : RefreshSession, lookupJti tok.jti db = some s ∧ s.revoked = true) →
      (rotate_refresh_token now newJti newExp tok db).outcome
        = .error .InvalidRefreshToken) ∧
    (∀ (uid : Nat) (j1 j2 j3 : String) (e1 e2 e3 now : Int),
      j1 ≠ j2 → now < e1 → now < e2 →
      (rotate_refresh_token now j2 e2 ⟨uid, j1, e1⟩
          (issue_token_pair uid j1 e1 [])).outcome = .ok ⟨uid, j2, e2⟩ ∧
      (rotate_refresh_token now j3 e3 ⟨uid, j1, e1⟩
          (rotate_refresh_token now j2 e2 ⟨uid, j1, e1⟩
            (issue_token_pair uid j1 e1 [])).ledger).outcome
        = .error .InvalidRefreshToken ∧
      (rotate_refresh_token now j3 e3 ⟨uid, j2, e2⟩
          (rotate_refresh_token now j2 e2 ⟨uid, j1, e1⟩
            (issue_token_pair uid j1 e1 [])).ledger).outcome = .ok ⟨uid, j3, e3⟩) := by
  constructor
  · intro now newExp newJti tok db h
    unfold rotate_refresh_token rotateWithSnapshot
    rcases h with hnone | ⟨s, hs, hrev⟩
    · rw [hnone]
    · rw [hs]; simp [hrev]
  · intro uid j1 j2 j3 e1 e2 e3 now hne h1 h2
    have h12 : (j1 == j2) = false := beq_eq_false_iff_ne.mpr hne
    have hle1 : ¬ (e1 ≤ now) := not_le.mpr h1
    have hle2 : ¬ (e2 ≤ now) := not_le.mpr h2
    refine ⟨?_, ?_, ?_⟩ <;>
      simp [rotate_refresh_token, rotateWithSnapshot, issue_token_pair,
        persist_refresh_token, lookupJti, List.find?, updateFirst,
        h12, hle1, hle2]

/-- Witness for C1: concrete inputs discharging the hypotheses. -/
theorem rotate_replay_detection_witness :
    (rotate_refresh_token 0 "j2" 5 ⟨1, "j1", 5⟩
        (issue_token_pair 1 "j1" 5 [])).outcome = .ok ⟨1, "j2", 5⟩ ∧
    (rotate_refresh_token 0 "j3" 5 ⟨1, "j1", 5⟩
        (rotate_refresh_token 0 "j2" 5 ⟨1, "j1", 5⟩
          (issue_token_pair 1 "j1" 5 [])).ledger).outcome
      = .error .InvalidRefreshToken ∧
    (rotate_refresh_token 0 "j3" 5 ⟨1, "j2", 5⟩
        (rotate_refresh_token 0 "j2" 5 ⟨1, "j1", 5⟩
          (issue_token_pair 1 "j1" 5 [])).ledger).outcome = .ok ⟨1, "j3", 5⟩ :=
  rotate_replay_detection.2 1 "j1" "j2" "j3" 5 5 5 0
    (by decide) (by decide) (by decide)

/-! ### Claim C3 — expired sessions are tombstoned on first use -/

/-- C3.  A cryptographically valid refresh token whose stored session is
unrevoked but expired is rejected with `InvalidRefreshToken`; the failing
call flips the session's `revoked` flag to `true` and creates no new
session. -/
theorem rotate_expired_tombstones (now newExp : Int) (newJti : String)
    (tok : RefreshPayload) (db : Ledger) (s : RefreshSession)
    (hs : lookupJti tok.jti db = some s) (hrev : s.revoked = false)
    (hexp : s.expires_at ≤ now) :
    (rotate_refresh_token now newJti newExp tok db).outcome
      = .error .InvalidRefreshToken ∧
    lookupJti tok.jti (rotate_refresh_token now newJti newExp tok db).ledger
      = some { s with revoked := true } ∧
    (rotate_refresh_token now newJti newExp tok db).ledger.length = db.length := by
  unfold rotate_refresh_token rotateWithSnapshot
  rw [hs]
  simp only [hrev, Bool.false_eq_true, if_false, if_pos hexp]
  refine ⟨trivial, ?_, updateFirst_length _ _ _⟩
  rw [lookupJti_updateFirst_self tok.jti
    (fun t => { t with revoked := true }) (fun t => rfl) db, hs]
  rfl

/-- Witness for C3: an expired unrevoked session is tombstoned. -/
theorem rotate_expired_tombstones_witness :
    (rotate_refresh_token 10 "j2" 20 ⟨1, "j1", 3⟩
        [⟨1, "j1", false, 3, none, none⟩]).outcome = .error .InvalidRefreshToken ∧
    lookupJti "j1" (rotate_refresh_token 10 "j2" 20 ⟨1, "j1", 3⟩
        [⟨1, "j1", false, 3, none, none⟩]).ledger
      = some ⟨1, "j1", true, 3, none, none⟩ ∧
    (rotate_refresh_token 10 "j2" 20 ⟨1, "j1", 3⟩
        [⟨1, "j1", false, 3, none, none⟩]).ledger.length = 1 :=
  rotate_expired_tombstones 10 20 "j2" ⟨1, "j1", 3⟩
    [⟨1, "j1", false, 3, none, none⟩] ⟨1, "j1", false, 3, none, none⟩
    (by decide) rfl (by decide)

/-! ### Claim C9 — revoke is an idempotent no-op on absence -/

/-- C9.  `revoke` returns `false` iff the `jti` is absent, returns `true`
when present (already revoked or not) leaving the session revoked, and a
second call returns the same result while changing no state. -/
theorem revoke_idempotent (tok : RefreshPayload) (db : Ledger) :
    (lookupJti tok.jti db = none → revoke_refresh_token tok db = (false, db)) ∧
    (∀ s : RefreshSession, lookupJti tok.jti db = some s →
      (revoke_refresh_token tok db).1 = true ∧
      lookupJti tok.jti (revoke_refresh_token tok db).2
        = some { s with revoked := true }) ∧
    revoke_refresh_token tok (revoke_refresh_token tok db).2
      = revoke_refresh_token tok db := by
  refine ⟨?_, ?_, ?_⟩
  · intro h
    unfold revoke_refresh_token
    rw [h]
  · intro s hs
    unfold revoke_refresh_token
    rw [hs]
    by_cases hrev : s.revoked = true
    · simp only [hrev, if_true]
      refine ⟨trivial, ?_⟩
      rw [hs]
      cases s
      simp_all
    · have hf : s.revoked = false := by simpa using hrev
      simp only [hf, Bool.false_eq_true, if_false]
      refine ⟨trivial, ?_⟩
      rw [lookupJti_updateFirst_self tok.jti
        (fun t => { t with revoked := true }) (fun t => rfl) db, hs]
      rfl
  · rcases h : lookupJti tok.jti db with _ | s
    · have e : revoke_refresh_token tok db = (false, db) := by
        unfold revoke_refresh_token; rw [h]
      rw [e]; exact e
    · by_cases hrev : s.revoked = true
      · have e : revoke_refresh_token tok db = (true, db) := by
          unfold revoke_refresh_token; rw [h]; simp only [hrev, if_true]
        rw [e]; exact e
      · have hf : s.revoked = false := by simpa using hrev
        have e : revoke_refresh_token tok db
            = (true, updateFirst (fun t => t.jti == tok.jti)
                (fun t => { t with revoked := true }) db) := by
          unfold revoke_refresh_token; rw [h]
          simp only [hf, Bool.false_eq_true, if_false]
        have hl : lookupJti tok.jti (updateFirst (fun t => t.jti == tok.jti)
            (fun t => { t with revoked := true }) db)
              = some { s with revoked := true } := by
          rw [lookupJti_updateFirst_self tok.jti
            (fun t => { t with revoked := true }) (fun t => rfl) db, h]
          rfl
        rw [e]
        unfold revoke_refresh_token
        rw [hl]
        simp

/-- Witness for C9: concrete inputs discharging the hypotheses. -/
theorem revoke_idempotent_witness :
    revoke_refresh_token ⟨1, "x", 9⟩ [] = (false, []) ∧
    ((revoke_refresh_token ⟨1, "j", 9⟩ [⟨1, "j", false, 9, none, none⟩]).1 = true ∧
      lookupJti "j" (revoke_refresh_token ⟨1, "j", 9⟩
          [⟨1, "j", false, 9, none, none⟩]).2
        = some ⟨1, "j", true, 9, none, none⟩) :=
  ⟨(revoke_idempotent ⟨1, "x", 9⟩ []).1 (by decide),
    (revoke_idempotent ⟨1, "j", 9⟩ [⟨1, "j", false, 9, none, none⟩]).2.1
      ⟨1, "j", false, 9, none, none⟩ (by decide)⟩

/-! ### Claim C4 — state invariants of the ledger -/

theorem replacedInv_updateFirst (p : RefreshSession → Bool)
    (f : RefreshSession → RefreshSession) (hf : ∀ s, (f s).revoked = true)
    (db : Ledger) (hinv : ReplacedImpliesRevoked db) :
    ReplacedImpliesRevoked (updateFirst p f db) := by
  intro x hx hrep
  rcases mem_updateFirst p f db x hx with h | ⟨s, _, rfl⟩
  · exact hinv x h hrep
  · exact hf s

theorem replacedInv_persist (uid : Nat) (jti : String) (exp : Int)
    (rot : Option String) (db : Ledger) (hinv : ReplacedImpliesRevoked db) :
    ReplacedImpliesRevoked (persist_refresh_token uid jti exp rot db) := by
  intro x hx hrep
  rcases List.mem_append.mp hx with h | h
  · exact hinv x h hrep
  · simp only [List.mem_singleton] at h
    subst h
    simp at hrep

theorem step_preserves_replacedInv (db db' : Ledger) (h : Step db db')
    (hinv : ReplacedImpliesRevoked db) : ReplacedImpliesRevoked db' := by
  cases h with
  | issue uid jti exp db => exact replacedInv_persist uid jti exp none db hinv
  | rotate now newJti newExp tok db =>
    unfold rotate_refresh_token rotateWithSnapshot
    rcases hl : lookupJti tok.jti db with _ | s
    · exact hinv
    · by_cases hrev : s.revoked = true
      · simp only [hrev, if_true]
        exact hinv
      · have hf : s.revoked = false := by simpa using hrev
        simp only [hf, Bool.false_eq_true, if_false]
        by_cases hexp : s.expires_at ≤ now
        · rw [if_pos hexp]
          exact replacedInv_updateFirst (fun t => t.jti == tok.jti)
            (fun t => { t with revoked := true }) (fun t => rfl) db hinv
        · rw [if_neg hexp]
          exact replacedInv_persist _ _ _ _ _
            (replacedInv_updateFirst (fun t => t.jti == tok.jti)
              (fun t => { t with revoked := true, replaced_by_jti := some newJti })
              (fun t => rfl) db hinv)
  | revoke tok db =>
    unfold revoke_refresh_token
    rcases hl : lookupJti tok.jti db with _ | s
    · exact hinv
    · by_cases hrev : s.revoked = true
      · simp only [hrev, if_true]
        exact hinv
      · have hf : s.revoked = false := by simpa using hrev
        simp only [hf, Bool.false_eq_true, if_false]
        exact replacedInv_updateFirst (fun t => t.jti == tok.jti)
          (fun t => { t with revoked := true }) (fun t => rfl) db hinv

theorem revokedMonotone_refl (db : Ledger) : RevokedMonotone db db := by
  refine ⟨le_refl _, ?_⟩
  intro i s s' hs hs'
  rw [hs] at hs'
  cases hs'
  exact ⟨rfl, fun h => h⟩

theorem revokedMonotone_updateFirst (p : RefreshSession → Bool)
    (f : RefreshSession → RefreshSession) (hjti : ∀ s, (f s).jti = s.jti)
    (hrev : ∀ s, s.revoked = true → (f s).revoked = true) (db : Ledger) :
    RevokedMonotone db (updateFirst p f db) := by
  refine ⟨by rw [updateFirst_length], ?_⟩
  intro i s s' hs hs'
  rcases updateFirst_getElem p f db i with h | h
  · rw [h, hs] at hs'
    cases hs'
    exact ⟨rfl, fun h => h⟩
  · rw [h, hs] at hs'
    have hfs : f s = s' := by simpa using hs'
    subst hfs
    exact ⟨hjti s, hrev s⟩

theorem revokedMonotone_append (db l : Ledger) :
    RevokedMonotone db (db ++ l) := by
  refine ⟨by simp, ?_⟩
  intro i s s' hs hs'
  have hi : i < db.length := by
    rcases List.getElem?_eq_some_iff.mp hs with ⟨h, _⟩
    exact h
  rw [List.getElem?_append_left hi, hs] at hs'
  cases hs'
  exact ⟨rfl, fun h => h⟩

theorem revokedMonotone_trans (a b c : Ledger) (hab : RevokedMonotone a b)
    (hbc : RevokedMonotone b c) : RevokedMonotone a c := by
  refine ⟨le_trans hab.1 hbc.1, ?_⟩
  intro i s s' hs hs'
  have hi : i < a.length := by
    rcases List.getElem?_eq_some_iff.mp hs with ⟨h, _⟩
    exact h
  have hib : i < b.length := lt_of_lt_of_le hi hab.1
  have hb : b[i]? = some (b.get ⟨i, hib⟩) :=
    List.getElem?_eq_some_iff.mpr ⟨hib, rfl⟩
  rcases hab.2 i s (b.get ⟨i, hib⟩) hs hb with ⟨hj1, hr1⟩
  rcases hbc.2 i (b.get ⟨i, hib⟩) s' hb hs' with ⟨hj2, hr2⟩
  exact ⟨hj2.trans hj1, fun h => hr2 (hr1 h)⟩

theorem step_revokedMonotone (db db' : Ledger) (h : Step db db') :
    RevokedMonotone db db' := by
  cases h with
  | issue uid jti exp db => exact revokedMonotone_append db _
  | rotate now newJti newExp tok db =>
    unfold rotate_refresh_token rotateWithSnapshot
    rcases hl : lookupJti tok.jti db with _ | s
    · exact revokedMonotone_refl db
    · by_cases hrev : s.revoked = true
      · simp only [hrev, if_true]
        exact revokedMonotone_refl db
      · have hf : s.revoked = false := by simpa using hrev
        simp only [hf, Bool.false_eq_true, if_false]
        by_cases hexp : s.expires_at ≤ now
        · rw [if_pos hexp]
          exact revokedMonotone_updateFirst (fun t => t.jti == tok.jti)
            (fun t => { t with revoked := true }) (fun t => rfl) (fun t _ => rfl) db
        · rw [if_neg hexp]
          exact revokedMonotone_trans _ _ _
            (revokedMonotone_updateFirst (fun t => t.jti == tok.jti)
              (fun t => { t with revoked := true, replaced_by_jti := some newJti })
              (fun t => rfl) (fun t _ => rfl) db)
            (revokedMonotone_append _ _)
  | revoke tok db =>
    unfold revoke_refresh_token
    rcases hl : lookupJti tok.jti db with _ | s
    · exact revokedMonotone_refl db
    · by_cases hrev : s.revoked = true
      · simp only [hrev, if_true]
        exact revokedMonotone_refl db
      · have hf : s.revoked = false := by simpa using hrev
        simp only [hf, Bool.false_eq_true, if_false]
        exact revokedMonotone_updateFirst (fun t => t.jti == tok.jti)
          (fun t => { t with revoked := true }) (fun t => rfl) (fun t _ => rfl) db

/-- C4.  Over all ledger states reachable from the empty table, every
session with `replaced_by_jti` set is revoked; and every single operation
preserves rows in place, keeps their `jti`, and never resets a revoked
session back to unrevoked. -/
theorem refresh_session_state_invariants :
    (∀ db : Ledger, Reachable db → ReplacedImpliesRevoked db) ∧
    (∀ db db' : Ledger, Step db db' → RevokedMonotone db db') := by
  constructor
  · intro db h
    induction h with
    | refl => intro s hs; simp at hs
    | tail _ hbc ih => exact step_preserves_replacedInv _ _ hbc ih
  · intro db db' h
    exact step_revokedMonotone db db' h

/-- Witness for C4: the invariants instantiated on a concrete reachable
state (issue then rotate) and a concrete step. -/
theorem refresh_session_state_invariants_witness :
    ReplacedImpliesRevoked
      (rotate_refresh_token 0 "b" 9 ⟨1, "a", 9⟩ (issue_token_pair 1 "a" 9 [])).ledger ∧
    RevokedMonotone [] (issue_token_pair 1 "a" 9 []) :=
  ⟨refresh_session_state_invariants.1 _
      (Relation.ReflTransGen.tail
        (Relation.ReflTransGen.single (Step.issue 1 "a" 9 []))
        (Step.rotate 0 "b" 9 ⟨1, "a", 9⟩ _)),
    refresh_session_state_invariants.2 _ _ (Step.issue 1 "a" 9 [])⟩

/-! ### Claim C2 — concurrent rotation -/

/-- C2 (refuting evidence).  Under the interleaving in which both rotation
transactions run their `SELECT` before either commits — possible because
the source flips `revoked` by plain assignment on the loaded row, with no
conditional `WHERE revoked = false` guard — both attempts on the same
refresh token succeed. -/
theorem concurrent_rotation_both_succeed :
    ((twoRotationsBothRead 0 "b" 20 "c" 30 ⟨7, "a", 100⟩
        [⟨7, "a", false, 100, none, none⟩]).1.outcome = .ok ⟨7, "b", 20⟩) ∧
    ((twoRotationsBothRead 0 "b" 20 "c" 30 ⟨7, "a", 100⟩
        [⟨7, "a", false, 100, none, none⟩]).2.outcome = .ok ⟨7, "c", 30⟩) :=
  ⟨rfl, rfl⟩

/-! ### Claim C5 — OAuth state round-trip and cross-provider rejection -/

/-- C5.  Parsing a built state with the matching expected provider, before
its expiry, returns exactly the built fields; parsing a state built for a
different provider fails with `InvalidOAuthState`. -/
theorem oauth_state_roundtrip :
    (∀ (provider code_verifier : String) (redirect_to_frontend : Bool)
        (link_user_id : Option Int) (jti : String) (now ttl parseNow : Int),
      code_verifier ≠ "" →
      (∀ l : Int, link_user_id = some l → 0 < l) →
      ¬ (now + ttl < parseNow) →
      parse_oauth_state
          (build_oauth_state provider code_verifier redirect_to_frontend
            link_user_id jti now ttl) provider parseNow
        = .ok ⟨provider, code_verifier, redirect_to_frontend, link_user_id⟩) ∧
    (∀ (pa pb code_verifier : String) (r : Bool) (l : Option Int)
        (jti : String) (now ttl parseNow : Int),
      pa ≠ pb →
      parse_oauth_state (build_oauth_state pa code_verifier r l jti now ttl)
          pb parseNow = .error .InvalidOAuthState) := by
  constructor
  · intro provider code_verifier r link_user_id jti now ttl parseNow hv hl hexp
    unfold parse_oauth_state build_oauth_state
    rw [if_neg hexp]
    simp only [ne_eq, not_true, not_false_iff, if_false, if_neg]
    rw [if_neg hv]
    cases link_user_id with
    | none => rfl
    | some l =>
      have : ¬ (l ≤ 0) := not_le.mpr (hl l rfl)
      simp only [this, if_false, if_neg]
  · intro pa pb code_verifier r l jti now ttl parseNow hne
    unfold parse_oauth_state build_oauth_state
    by_cases hexp : (now + ttl : Int) < parseNow
    · rw [if_pos hexp]
    · rw [if_neg hexp]
      rw [if_neg (by simp : ¬ ("oauth_state" ≠ "oauth_state"))]
      rw [if_pos hne]

/-- Witness for C5: a concrete round-trip and a concrete cross-provider
rejection. -/
theorem oauth_state_roundtrip_witness :
    parse_oauth_state
        (build_oauth_state "google" "v" true (some 5) "j" 0 300) "google" 10
      = .ok ⟨"google", "v", true, some 5⟩ ∧
    parse_oauth_state
        (build_oauth_state "google" "v" true (some 5) "j" 0 300) "github" 10
      = .error .InvalidOAuthState :=
  ⟨oauth_state_roundtrip.1 "google" "v" true (some 5) "j" 0 300 10
      (by decide) (fun l h => by cases h; decide) (by decide),
    oauth_state_roundtrip.2 "google" "github" "v" true (some 5) "j" 0 300 10
      (by decide)⟩

/-! ### Claim C10 — build/parse disagree on the domain of link_user_id -/

/-- C10.  `build_oauth_state` embeds a non-positive `link_user_id`
unchecked, yet `parse_oauth_state` on that very state, with the matching
provider and before expiry, fails with `InvalidOAuthState`. -/
theorem nonpositive_link_user_id_rejected_only_at_parse
    (provider code_verifier : String) (r : Bool) (l : Int) (jti : String)
    (now ttl parseNow : Int) (hl : l ≤ 0) (hv : code_verifier ≠ "")
    (hexp : ¬ (now + ttl < parseNow)) :
    (build_oauth_state provider code_verifier r (some l) jti now ttl).link_user_id
      = some l ∧
    parse_oauth_state
        (build_oauth_state provider code_verifier r (some l) jti now ttl)
        provider parseNow = .error .InvalidOAuthState := by
  refine ⟨rfl, ?_⟩
  unfold parse_oauth_state build_oauth_state
  rw [if_neg hexp]
  rw [if_neg (by simp : ¬ ("oauth_state" ≠ "oauth_state"))]
  rw [if_neg (by simp : ¬ (provider ≠ provider))]
  rw [if_neg hv]
  simp only [if_pos hl]

/-- Witness for C10: `link_user_id = 0` builds fine and fails to parse. -/
theorem nonpositive_link_user_id_rejected_only_at_parse_witness :
    (build_oauth_state "google" "v" true (some 0) "j" 0 300).link_user_id
      = some 0 ∧
    parse_oauth_state (build_oauth_state "google" "v" true (some 0) "j" 0 300)
        "google" 10 = .error .InvalidOAuthState :=
  nonpositive_link_user_id_rejected_only_at_parse "google" "v" true 0 "j" 0 300 10
    (by decide) (by decide) (by decide)

/-! ### Claim C6 — PKCE challenge derivation -/

/-- Characters emitted by the base64 alphabet are never the pad `'='`. -/
theorem b64Char_ne_pad (n : Nat) : b64Char n ≠ '=' := by
  have h : ∀ m : Nat, m < 64 → base64UrlAlphabet.getD m 'A' ≠ '=' := by decide
  exact h (n % 64) (Nat.mod_lt n (by norm_num))

/-- Stripping trailing pads off `l ++ t` keeps a pad-free non-empty `l`
intact. -/
theorem stripTrailingEq_append (l t : List Char)
    (h : ∀ ch ∈ l, ch ≠ '=') :
    stripTrailingEq (l ++ t) = l ++ stripTrailingEq t := by
  unfold stripTrailingEq
  rw [List.reverse_append, List.dropWhile_append]
  have hl : l.reverse.dropWhile (fun ch => ch == '=') = l.reverse := by
    cases hr : l.reverse with
    | nil => simp
    | cons c cs =>
      have hc : c ∈ l := by
        have : c ∈ l.reverse := by rw [hr]; exact List.mem_cons_self ..
        simpa using this
      have : (c == '=') = false := beq_eq_false_iff_ne.mpr (h c hc)
      simp [List.dropWhile_cons, this]
  by_cases he : (t.reverse.dropWhile (fun ch => ch == '=')).isEmpty
  · rw [if_pos he, hl]
    have : t.reverse.dropWhile (fun ch => ch == '=') = [] :=
      List.isEmpty_iff.mp he
    simp [this]
  · rw [if_neg he]
    simp

/-- The source's encode-then-strip equals the spec's padding-free base64. -/
theorem strip_base64UrlEncode : ∀ bs : List Nat,
    stripTrailingEq (base64UrlEncode bs) = base64UrlNoPad bs
  | [] => rfl
  | [a] => by
    have h2 : (b64Char ((a % 4) * 16) == '=') = false :=
      beq_eq_false_iff_ne.mpr (b64Char_ne_pad _)
    simp [base64UrlEncode, base64UrlNoPad, stripTrailingEq, List.dropWhile, h2]
  | [a, b] => by
    have h3 : (b64Char ((b % 16) * 4) == '=') = false :=
      beq_eq_false_iff_ne.mpr (b64Char_ne_pad _)
    simp [base64UrlEncode, base64UrlNoPad, stripTrailingEq, List.dropWhile, h3]
  | a :: b :: c :: rest => by
    have hk : ∀ ch ∈ [b64Char (a / 4), b64Char ((a % 4) * 16 + b / 16),
        b64Char ((b % 16) * 4 + c / 64), b64Char (c % 64)], ch ≠ '=' := by
      intro ch hch
      simp only [List.mem_cons, List.not_mem_nil, or_false] at hch
      rcases hch with rfl | rfl | rfl | rfl <;> exact b64Char_ne_pad _
    have heq : base64UrlEncode (a :: b :: c :: rest)
        = [b64Char (a / 4), b64Char ((a % 4) * 16 + b / 16),
           b64Char ((b % 16) * 4 + c / 64), b64Char (c % 64)]
          ++ base64UrlEncode rest := rfl
    rw [heq, stripTrailingEq_append _ _ hk,
      strip_base64UrlEncode rest]
    rfl

set_option maxRecDepth 10000 in
/-- Sanity check of the SHA-256 embedding on the FIPS 180-4 test vector
`"abc"`. -/
theorem sha256_matches_fips_vector :
    sha256 (utf8Bytes "abc") =
      [186, 120, 22, 191, 143, 1, 207, 234, 65, 65,
       64, 222, 93, 174, 34, 35, 176, 3, 97, 163,
       150, 23, 122, 156, 180, 16, 255, 97, 242, 0,
       21, 173] := by decide

/-- C6.  The derived PKCE challenge is the URL-safe base64, padding
stripped, of the SHA-256 digest of the verifier's UTF-8 bytes; the
derivation is deterministic; and for every provider configuration the
composed authorization parameters advertise method `S256`. -/
theorem code_challenge_correct :
    (∀ v : String,
      build_code_challenge v = base64UrlNoPad (sha256 (utf8Bytes v))) ∧
    (∀ v w : String, v = w → build_code_challenge v = build_code_challenge w) ∧
    (∀ pc ∈ PROVIDERS, ∀ cid cb st ch : String,
      (authorizationParams pc.2 cid cb st ch).lookup "code_challenge_method"
        = some "S256") := by
  refine ⟨fun v => strip_base64UrlEncode _, fun v w h => by rw [h], ?_⟩
  intro pc hpc cid cb st ch
  fin_cases hpc <;> rfl

/-- Witness for C6: the determinism and `S256` conjuncts discharged on
concrete inputs. -/
theorem code_challenge_correct_witness :
    build_code_challenge "verifier" = build_code_challenge "verifier" ∧
    (authorizationParams (PROVIDERS.get ⟨2, by decide⟩).2 "cid" "cb" "st" "ch").lookup
        "code_challenge_method" = some "S256" := by
  refine ⟨code_challenge_correct.2.1 "verifier" "verifier" rfl, ?_⟩
  exact code_challenge_correct.2.2 _ (List.get_mem _ _ _) "cid" "cb" "st" "ch" 

/-! ### Claim C8 — GitHub secondary e-mail selection -/

/-- C8.  On an entry list whose entries carry non-empty e-mails, the
secondary lookup selects the e-mail of the first primary-and-verified
entry, else of the first verified entry (in both cases with
`email_verified = true`), else none with `false`; and the GitHub identity
fetch consults the e-mail list exactly when the primary profile's resolved
e-mail is absent. -/
theorem github_secondary_email_selection :
    (∀ entries : List GithubEmailEntry,
      (∀ e ∈ entries, ∃ m : String, e.email = some m ∧ m ≠ "") →
      (∀ en : GithubEmailEntry,
        entries.find? (fun e => e.verified && e.primary) = some en →
        select_github_email entries = (en.email, true)) ∧
      (entries.find? (fun e => e.verified && e.primary) = none →
        ∀ en : GithubEmailEntry,
        entries.find? (fun e => e.verified) = some en →
        select_github_email entries = (en.email, true)) ∧
      (entries.find? (fun e => e.verified) = none →
        select_github_email entries = (none, false))) ∧
    (∀ (user : UserinfoPayload) (ident : ExternalIdentity),
      identity_from_userinfo "github" user = .ok ident →
      (ident.email = none → ∀ emails : List GithubEmailEntry,
        fetch_github_identity user emails
          = .ok ⟨ident.provider, ident.subject,
              (select_github_email emails).1,
              (select_github_email emails).2⟩) ∧
      (ident.email ≠ none → ∀ emails : List GithubEmailEntry,
        fetch_github_identity user emails = .ok ident)) := by
  constructor
  · intro entries hne
    refine ⟨?_, ?_, ?_⟩
    · intro en hen
      rcases hne en (List.mem_of_find?_eq_some hen) with ⟨m, hm, hm0⟩
      simp [select_github_email, hen, hm, hm0]
    · intro hnone en hen
      rcases hne en (List.mem_of_find?_eq_some hen) with ⟨m, hm, hm0⟩
      simp [select_github_email, hnone, hen, hm, hm0]
    · intro hnonev
      have hforall := List.find?_eq_none.mp hnonev
      have hnp : entries.find? (fun e => e.verified && e.primary) = none := by
        rw [List.find?_eq_none]
        intro x hx hvp
        exact hforall x hx (by revert hvp; cases x.verified <;> simp)
      simp [select_github_email, hnp, hnonev]
  · intro user ident hid
    constructor
    · intro hemail emails
      simp [fetch_github_identity, hid, hemail]
    · intro hemail emails
      rcases Option.ne_none_iff_exists.mp hemail with ⟨m, hm⟩
      simp [fetch_github_identity, hid, ← hm]

/-- Witness for C8: a concrete entry list and a concrete e-mail-less
primary profile triggering the secondary lookup. -/
theorem github_secondary_email_selection_witness :
    select_github_email [⟨some "dev@example.org", true, true⟩]
      = (some "dev@example.org", true) ∧
    fetch_github_identity ⟨none, some "77", none, none, false⟩
        [⟨some "dev@example.org", true, true⟩]
      = .ok ⟨"github", "77", some "dev@example.org", true⟩ :=
  ⟨(github_secondary_email_selection.1 [⟨some "dev@example.org", true, true⟩]
      (by decide)).1 ⟨some "dev@example.org", true, true⟩ rfl,
    (github_secondary_email_selection.2 ⟨none, some "77", none, none, false⟩
      ⟨"github", "77", none, false⟩ rfl).1 rfl
      [⟨some "dev@example.org", true, true⟩]⟩

/-! ### Claim C7 — link_to_user conflict handling and idempotence -/

theorem find?_user_of_exists (users : List User) (uid : Nat)
    (hex : ∃ u ∈ users, u.id = uid) :
    ∃ user : User, users.find? (fun u => u.id == uid) = some user ∧
      user.id = uid := by
  rcases hex with ⟨u, hu, hidu⟩
  have hs : (users.find? (fun u => u.id == uid)).isSome :=
    List.find?_isSome.mpr ⟨u, hu, by simpa using hidu⟩
  rcases Option.isSome_iff_exists.mp hs with ⟨user, hfind⟩
  exact ⟨user, hfind, by simpa using List.find?_some hfind⟩

theorem find?_eq_some_of_unique {α : Type} (p : α → Bool) (l : List α) (a : α)
    (ha : a ∈ l) (hpa : p a = true)
    (huniq : ∀ b ∈ l, p b = true → b = a) :
    l.find? p = some a := by
  induction l with
  | nil => cases ha
  | cons x xs ih =>
    by_cases hx : p x = true
    · rw [List.find?_cons_of_pos _ hx, huniq x (List.mem_cons_self ..) hx]
    · rw [List.find?_cons_of_neg _ hx]
      have hax : a ≠ x := fun h => hx (h ▸ hpa)
      have ha' : a ∈ xs := by
        rcases List.mem_cons.mp ha with h | h
        · exact absurd h hax
        · exact h
      exact ih ha' (fun b hb hpb => huniq b (List.mem_cons_of_mem _ hb) hpb)

theorem updateFirstAccount_length (p : OAuthAccount → Bool)
    (f : OAuthAccount → OAuthAccount) (accounts : List OAuthAccount) :
    (updateFirstAccount p f accounts).length = accounts.length := by
  induction accounts with
  | nil => rfl
  | cons a rest ih =>
    simp only [updateFirstAccount]
    by_cases h : p a <;> simp [h, ih]

/-- C7.  `link_to_user` fails `UserNotFound` on a missing target user,
`IdentityAlreadyLinked` when `(provider, subject)` belongs to a different
user, `ProviderAlreadyLinked` when the user holds that provider with a
different subject, refreshes idempotently (no new row) on the same
provider+subject, and otherwise appends exactly one new row. -/
theorem link_to_user_cases (users : List User) (accounts : List OAuthAccount)
    (uid : Nat) (ident : ExternalIdentity) (now : Int)
    (hwf : AccountsWf accounts) :
    ((∀ u ∈ users, u.id ≠ uid) →
      link_identity_to_existing_user users accounts uid ident now
        = .error .UserNotFound) ∧
    ((∃ u ∈ users, u.id = uid) →
      (∃ a ∈ accounts, a.provider = ident.provider ∧
        a.provider_subject = ident.subject ∧ a.user_id ≠ uid) →
      link_identity_to_existing_user users accounts uid ident now
        = .error .IdentityAlreadyLinked) ∧
    ((∃ u ∈ users, u.id = uid) →
      (∀ a ∈ accounts, a.provider = ident.provider →
        a.provider_subject = ident.subject → a.user_id = uid) →
      (∃ b ∈ accounts, b.user_id = uid ∧ b.provider = ident.provider ∧
        b.provider_subject ≠ ident.subject) →
      link_identity_to_existing_user users accounts uid ident now
        = .error .ProviderAlreadyLinked) ∧
    ((∃ u ∈ users, u.id = uid) →
      (∃ b ∈ accounts, b.user_id = uid ∧ b.provider = ident.provider ∧
        b.provider_subject = ident.subject) →
      link_identity_to_existing_user users accounts uid ident now
        = .ok (updateFirstAccount
            (fun a => a.user_id == uid && a.provider == ident.provider)
            (refreshAccount ident now) accounts) ∧
      (updateFirstAccount
          (fun a => a.user_id == uid && a.provider == ident.provider)
          (refreshAccount ident now) accounts).length = accounts.length) ∧
    ((∃ u ∈ users, u.id = uid) →
      (∀ a ∈ accounts, ¬ (a.provider = ident.provider ∧
        a.provider_subject = ident.subject)) →
      (∀ a ∈ accounts, ¬ (a.user_id = uid ∧ a.provider = ident.provider)) →
      link_identity_to_existing_user users accounts uid ident now
        = .ok (accounts ++
            [⟨uid, ident.provider, ident.subject, ident.email, now⟩])) := by
  refine ⟨?_, ?_, ?_, ?_, ?_⟩
  · intro hno
    have hfind : users.find? (fun u => u.id == uid) = none := by
      rw [List.find?_eq_none]
      intro u hu
      simpa using hno u hu
    unfold link_identity_to_existing_user
    rw [hfind]
  · intro hex hforeign
    obtain ⟨user, hfind, huid⟩ := find?_user_of_exists users uid hex
    rcases hforeign with ⟨a, hamem, hap, has, hau⟩
    have hfa : accounts.find? (fun x => x.provider == ident.provider &&
        x.provider_subject == ident.subject) = some a := by
      refine find?_eq_some_of_unique _ _ a hamem (by simp [hap, has]) ?_
      intro b hb hpb
      simp only [Bool.and_eq_true, beq_iff_eq] at hpb
      exact hwf.1 b hb a hamem (hpb.1.trans hap.symm) (hpb.2.trans has.symm)
    have hc : (a.user_id != uid) = true := by simp [bne_iff_ne, hau]
    simp [link_identity_to_existing_user, hfind, hfa, huid, hc]
  · intro hex hsame hdiff
    obtain ⟨user, hfind, huid⟩ := find?_user_of_exists users uid hex
    rcases hdiff with ⟨b, hbmem, hbu, hbp, hbs⟩
    have hfb : accounts.find? (fun x => x.user_id == uid &&
        x.provider == ident.provider) = some b := by
      refine find?_eq_some_of_unique _ _ b hbmem (by simp [hbu, hbp]) ?_
      intro x hx hpx
      simp only [Bool.and_eq_true, beq_iff_eq] at hpx
      exact hwf.2 x hx b hbmem (hpx.1.trans hbu.symm) (hpx.2.trans hbp.symm)
    have hc2 : (b.provider_subject != ident.subject) = true := by
      simp [bne_iff_ne, hbs]
    rcases hf : accounts.find? (fun x => x.provider == ident.provider &&
        x.provider_subject == ident.subject) with _ | a
    · simp [link_identity_to_existing_user, hfind, hf, huid, hfb, hc2]
    · have hpa := List.find?_some hf
      simp only [Bool.and_eq_true, beq_iff_eq] at hpa
      have hau : a.user_id = uid :=
        hsame a (List.mem_of_find?_eq_some hf) hpa.1 hpa.2
      have hc1 : (a.user_id != uid) = false := by simp [bne_iff_ne, hau]
      simp [link_identity_to_existing_user, hfind, hf, huid, hc1, hfb, hc2]
  · intro hex hsame
    obtain ⟨user, hfind, huid⟩ := find?_user_of_exists users uid hex
    rcases hsame with ⟨b, hbmem, hbu, hbp, hbs⟩
    have hfa : accounts.find? (fun x => x.provider == ident.provider &&
        x.provider_subject == ident.subject) = some b := by
      refine find?_eq_some_of_unique _ _ b hbmem (by simp [hbp, hbs]) ?_
      intro x hx hpx
      simp only [Bool.and_eq_true, beq_iff_eq] at hpx
      exact hwf.1 x hx b hbmem (hpx.1.trans hbp.symm) (hpx.2.trans hbs.symm)
    have hfb : accounts.find? (fun x => x.user_id == uid &&
        x.provider == ident.provider) = some b := by
      refine find?_eq_some_of_unique _ _ b hbmem (by simp [hbu, hbp]) ?_
      intro x hx hpx
      simp only [Bool.and_eq_true, beq_iff_eq] at hpx
      exact hwf.2 x hx b hbmem (hpx.1.trans hbu.symm) (hpx.2.trans hbp.symm)
    have hc1 : (b.user_id != uid) = false := by simp [bne_iff_ne, hbu]
    have hc2 : (b.provider_subject != ident.subject) = false := by
      simp [bne_iff_ne, hbs]
    refine ⟨?_, updateFirstAccount_length _ _ _⟩
    simp [link_identity_to_existing_user, hfind, hfa, huid, hc1, hfb, hc2]
  · intro hex hnosubj hnoprov
    obtain ⟨user, hfind, huid⟩ := find?_user_of_exists users uid hex
    have hfa : accounts.find? (fun x => x.provider == ident.provider &&
        x.provider_subject == ident.subject) = none := by
      rw [List.find?_eq_none]
      intro x hx hpx
      simp only [Bool.and_eq_true, beq_iff_eq] at hpx
      exact hnosubj x hx ⟨hpx.1, hpx.2⟩
    have hfb : accounts.find? (fun x => x.user_id == uid &&
        x.provider == ident.provider) = none := by
      rw [List.find?_eq_none]
      intro x hx hpx
      simp only [Bool.and_eq_true, beq_iff_eq] at hpx
      exact hnoprov x hx ⟨hpx.1, hpx.2⟩
    simp [link_identity_to_existing_user, hfind, hfa, huid, hfb]

/-- Witness for C7: creating a fresh link for an existing user with an
empty accounts table. -/
theorem link_to_user_cases_witness :
    link_identity_to_existing_user [⟨1, "u@example.org"⟩] [] 1
        ⟨"google", "subj", some "u@example.org", true⟩ 5
      = .ok [⟨1, "google", "subj", some "u@example.org", 5⟩] :=
  (link_to_user_cases [⟨1, "u@example.org"⟩] [] 1
      ⟨"google", "subj", some "u@example.org", true⟩ 5
      ⟨fun a ha => absurd ha (List.not_mem_nil a),
       fun a ha => absurd ha (List.not_mem_nil a)⟩).2.2.2.2
    ⟨⟨1, "u@example.org"⟩, List.mem_singleton.mpr rfl, rfl⟩
    (fun a ha => absurd ha (List.not_mem_nil a))
    (fun a ha => absurd ha (List.not_mem_nil a))

end FastapiTemplate
